import Mathlib

/-!
Verification of the grid-type resolution and attribute-discovery logic of
`gridded/gridded.py`.

The embedding models netCDF variables as integer arrays carried with an
explicit shape (`NDArray`), a netCDF dataset as an ordered name-keyed
mapping of variables plus its dataset-level attributes, and the functions
`Grid._find_required_grid_attrs`, `Grid_U._find_required_grid_attrs`,
`Grid_S._find_required_grid_attrs`, `Grid._get_grid_type`,
`Grid._find_topology_var`, `Grid.from_netCDF`, `Grid.new_from_dict` and
`Grid.__eq__` as executable Lean functions.  Fallible Python code is
modelled with `Except PyErr`, distinguishing `ValueError` (which
`_get_grid_type` catches in its fallback) from `KeyError` (which nothing
in the file catches).
-/

/-- A Python exception relevant to this module.  `ValueError` is the only
kind the module ever catches (in `_get_grid_type`'s fallback cascade);
`KeyError` arises from `dict` indexing and is never caught here. -/
inductive PyErr where
  | valueError : String → PyErr
  | keyError : String → PyErr
  | attributeError : String → PyErr
deriving Repr, DecidableEq

/-- A numpy / netCDF array: row-major flattened integer data together with
its shape, as read by `var[:]`. -/
structure NDArray where
  shape : List Nat
  data : List Int
deriving Repr, DecidableEq

/-- The number of elements of an array of the given shape. -/
def shapeProd : List Nat → Nat
  | [] => 1
  | d :: ds => d * shapeProd ds

/-- The multi-index of the k-th element of a row-major array of the given
shape. -/
def unflattenIdx : List Nat → Nat → List Nat
  | [], _ => []
  | _ :: ds, k => (k / shapeProd ds) :: unflattenIdx ds (k % shapeProd ds)

/-- The row-major position of a multi-index in the given shape. -/
def flattenIdx : List Nat → List Nat → Nat
  | _ :: ds, i :: is => i * shapeProd ds + flattenIdx ds is
  | _, _ => 0

/-- `numpy.ndarray.T`: reverse all axes.  Element at multi-index `idx` of
the transpose is the element at `idx.reverse` of the original array. -/
def npTranspose (a : NDArray) : NDArray :=
  { shape := a.shape.reverse,
    data := (List.range a.data.length).map fun k =>
      a.data.getD (flattenIdx a.shape (unflattenIdx a.shape.reverse k).reverse) 0 }

/-- Elementwise `arr - 1`. -/
def ndSubOne (a : NDArray) : NDArray :=
  { shape := a.shape, data := a.data.map fun x => x - 1 }

/-- `arr.reshape(-1, 2)`: numpy raises `ValueError` when the number of
elements is odd, and otherwise reinterprets the same row-major data with
shape `(size / 2, 2)`. -/
def reshapeNeg1Two (a : NDArray) : Except PyErr NDArray :=
  if a.data.length % 2 = 0 then
    .ok { shape := [a.data.length / 2, 2], data := a.data }
  else
    .error (.valueError "cannot reshape array into shape (-1,2)")

/-- Column `j` of an `(m, 2)`-shaped array: `v[:, j]`. -/
def ndCol (a : NDArray) (j : Nat) : NDArray :=
  { shape := [a.shape.headD 0],
    data := (List.range (a.shape.headD 0)).map fun i => a.data.getD (2 * i + j) 0 }

/-- A netCDF variable: its array data plus the attributes this module ever
inspects (`cf_role`, `node_coordinates`, `node_dimensions`); `none` models
an absent attribute. -/
structure NCVar where
  arr : NDArray
  cf_role : Option String := none
  node_coordinates : Option String := none
  node_dimensions : Option String := none
deriving Repr, DecidableEq

/-- A netCDF dataset: `variables_` is its ordered name-keyed variables
mapping (Python `netCDF4` exposes it as the dataset's variables dict;
Lean reserves that word, hence the trailing underscore), `grid_type` its
optional dataset-level `grid_type` attribute. -/
structure NCDataset where
  variables_ : List (String × NCVar)
  grid_type : Option String := none
deriving Repr, DecidableEq

/-- The file system visible to `get_dataset`: a mapping from filename to
the dataset stored there. -/
def FileSys : Type := List (String × NCDataset)

/-- The caller-supplied `grid_topology` mapping: an ordered Python dict
from logical attribute name to a string value (a variable name, or the
`grid_type` entry). -/
structure GridTopology where
  entries : List (String × String)
deriving Repr, DecidableEq

/-- `d.get(k)` on the topology dict. -/
def GridTopology.get (t : GridTopology) (k : String) : Option String :=
  (t.entries.find? fun p => p.1 == k).map Prod.snd

/-- `k in d.keys()` on the topology dict. -/
def GridTopology.hasKey (t : GridTopology) (k : String) : Bool :=
  t.entries.any fun p => p.1 == k

/-- `n in gf_vars` / `gf_vars[n]`: lookup in the dataset's variables
mapping. -/
def lookupVar (gf_vars : List (String × NCVar)) (n : String) : Option NCVar :=
  (gf_vars.find? fun p => p.1 == n).map Prod.snd

/-- Modelled from the spec: `get_dataset` lives in the repository's
`utilities` module, whose source is not included.  Per the spec's external
interface section it opens a dataset by name or accepts an already-open
handle, the handle taking precedence ("dataset: Takes precedence over
filename, if provided"). -/
def get_dataset (fs : FileSys) (filename : Option String)
    (dataset : Option NCDataset) : Option NCDataset :=
  match dataset with
  | some d => some d
  | none =>
    match filename with
    | some f => ((fs : List (String × NCDataset)).find? fun p => p.1 == f).map Prod.snd
    | none => none

/-- `node_attrs = ['node_lon', 'node_lat']` -/
def node_attrs : List String := ["node_lon", "node_lat"]

/-- `node_coord_names = [['node_lon','node_lat'], ['lon','lat'], ['lon_psi','lat_psi']]` -/
def node_coord_names : List (String × String) :=
  [("node_lon", "node_lat"), ("lon", "lat"), ("lon_psi", "lat_psi")]

/-- `composite_node_names = ['nodes', 'node']` -/
def composite_node_names : List String := ["nodes", "node"]

/-- The `for n1, n2 in node_coord_names` loop: the first pair both of whose
names are present in the variables mapping yields its two arrays. -/
def pair_scan (gf_vars : List (String × NCVar)) :
    List (String × String) → Option (NDArray × NDArray)
  | [] => none
  | (n1, n2) :: rest =>
    match lookupVar gf_vars n1, lookupVar gf_vars n2 with
    | some v1, some v2 => some (v1.arr, v2.arr)
    | _, _ => pair_scan gf_vars rest

/-- The node coordinate pair resolved by naming convention. -/
def node_pair_lookup (gf_vars : List (String × NCVar)) : Option (NDArray × NDArray) :=
  pair_scan gf_vars node_coord_names

/-- The `for n in composite_node_names` loop: the first composite node
variable present in the variables mapping. -/
def composite_scan (gf_vars : List (String × NCVar)) : List String → Option NDArray
  | [] => none
  | n :: rest =>
    match lookupVar gf_vars n with
    | some v => some v.arr
    | none => composite_scan gf_vars rest

/-- The composite node variable resolved by naming convention. -/
def composite_lookup (gf_vars : List (String × NCVar)) : Option NDArray :=
  composite_scan gf_vars composite_node_names

/-- The keyword arguments `_find_required_grid_attrs` accumulates
(`init_args`); an absent dict key is `none`. -/
structure InitArgs where
  filename : Option String := none
  node_lon : Option NDArray := none
  node_lat : Option NDArray := none
  faces : Option NDArray := none
  center_lon : Option NDArray := none
  center_lat : Option NDArray := none
  edge1_lon : Option NDArray := none
  edge1_lat : Option NDArray := none
  edge2_lon : Option NDArray := none
  edge2_lat : Option NDArray := none
deriving Repr, DecidableEq

/-- The `for n, v in grid_topology.items()` loop of the base
`Grid._find_required_grid_attrs`.  For a logical name in `node_attrs` the
dataset variable named by the mapping's VALUE `v` is stored
(`gf_vars[v][:]`, a `KeyError` when absent); for a logical composite name
the code indexes `gf_vars[n]` — the LOGICAL name, not the mapped value —
reshapes it to `(-1, 2)` and splits its columns. -/
def topo_fold (gf_vars : List (String × NCVar)) :
    List (String × String) → InitArgs → Except PyErr InitArgs
  | [], ia => .ok ia
  | (n, v) :: rest, ia =>
    let step1 : Except PyErr InitArgs :=
      if n ∈ node_attrs then
        match lookupVar gf_vars v with
        | some w =>
          .ok (if n = "node_lon" then { ia with node_lon := some w.arr }
               else { ia with node_lat := some w.arr })
        | none => .error (.keyError v)
      else .ok ia
    match step1 with
    | .error e => .error e
    | .ok ia1 =>
      let step2 : Except PyErr InitArgs :=
        if n ∈ composite_node_names then
          match lookupVar gf_vars n with
          | some w =>
            match reshapeNeg1Two w.arr with
            | .ok vv =>
              .ok { ia1 with node_lon := some (ndCol vv 0), node_lat := some (ndCol vv 1) }
            | .error e => .error e
          | none => .error (.keyError n)
        else .ok ia1
      match step2 with
      | .error e => .error e
      | .ok ia2 => topo_fold gf_vars rest ia2

/-- `Grid._find_required_grid_attrs`: resolves the variables mapping
(`dataset.variables_` when a dataset is given, else by opening `filename`),
then resolves node coordinates.  Without a `grid_topology` it tries the
known coordinate-name pairs in order, then the composite node names, and
raises `ValueError('Unable to find node coordinates.')` when both fail.
With a `grid_topology` it folds over the mapping's entries and performs NO
such check. -/
def grid_find_required_grid_attrs (fs : FileSys) (filename : Option String)
    (dataset : Option NCDataset) (grid_topology : Option GridTopology) :
    Except PyErr (InitArgs × List (String × NCVar)) :=
  let gf_vars? : Option (List (String × NCVar)) :=
    match dataset with
    | some d => some d.variables_
    | none => (get_dataset fs filename none).map NCDataset.variables_
  match gf_vars? with
  | none => .error (.attributeError "NoneType object has no attribute variables")
  | some gf_vars =>
    let init0 : InitArgs := { filename := filename }
    match grid_topology with
    | none =>
      match node_pair_lookup gf_vars with
      | some (a1, a2) =>
        .ok ({ init0 with node_lon := some a1, node_lat := some a2 }, gf_vars)
      | none =>
        match composite_lookup gf_vars with
        | some a =>
          match reshapeNeg1Two a with
          | .ok v =>
            .ok ({ init0 with node_lon := some (ndCol v 0), node_lat := some (ndCol v 1) },
                 gf_vars)
          | .error e => .error e
        | none => .error (.valueError "Unable to find node coordinates.")
    | some topo =>
      match topo_fold gf_vars topo.entries init0 with
      | .ok ia => .ok (ia, gf_vars)
      | .error e => .error e

/-- The `for n in face_var_names` loop of `Grid_U._find_required_grid_attrs`:
with a `grid_topology` the candidate list is `[grid_topology.get('faces')]`
(a `None` entry is never found in `gf_vars`), otherwise
`['faces', 'tris', 'nv', 'ele']`. -/
def face_scan (gf_vars : List (String × NCVar)) : List (Option String) → Option NDArray
  | [] => none
  | n? :: rest =>
    match n? with
    | some n =>
      match lookupVar gf_vars n with
      | some v => some v.arr
      | none => face_scan gf_vars rest
    | none => face_scan gf_vars rest

/-- The face/connectivity array resolved by `Grid_U._find_required_grid_attrs`
before the orientation fix. -/
def face_lookup (grid_topology : Option GridTopology)
    (gf_vars : List (String × NCVar)) : Option NDArray :=
  face_scan gf_vars
    (match grid_topology with
     | some t => [t.get "faces"]
     | none => [some "faces", some "tris", some "nv", some "ele"])

/-- `Grid_U._find_required_grid_attrs`: base attributes, then the face
array; when the resolved face array's first dimension is 3 it is replaced
by `np.ascontiguousarray(np.array(faces).T - 1)`, and when no face
variable is found a `ValueError('Unable to find faces variable')` is
raised. -/
def gridU_find_required_grid_attrs (fs : FileSys) (filename : Option String)
    (dataset : Option NCDataset) (grid_topology : Option GridTopology) :
    Except PyErr (InitArgs × List (String × NCVar)) :=
  match grid_find_required_grid_attrs fs filename dataset grid_topology with
  | .error e => .error e
  | .ok (ia, gf_vars) =>
    let ia1 :=
      match face_lookup grid_topology gf_vars with
      | some a => { ia with faces := some a }
      | none => ia
    match ia1.faces with
    | some f =>
      .ok ({ ia1 with
              faces := some (if f.shape.head? = some 3 then ndSubOne (npTranspose f) else f) },
           gf_vars)
    | none => .error (.valueError "Unable to find faces variable")

/-- Assignment of one structured-grid attribute by its logical name. -/
def setSAttr (ia : InitArgs) (n : String) (a : NDArray) : InitArgs :=
  if n = "center_lon" then { ia with center_lon := some a }
  else if n = "center_lat" then { ia with center_lat := some a }
  else if n = "edge1_lon" then { ia with edge1_lon := some a }
  else if n = "edge1_lat" then { ia with edge1_lat := some a }
  else if n = "edge2_lon" then { ia with edge2_lon := some a }
  else if n = "edge2_lat" then { ia with edge2_lat := some a }
  else ia

/-- The structured-grid attribute names accepted from a `grid_topology`
mapping (`center_attrs + edge1_attrs + edge2_attrs`). -/
def sgrid_attr_names : List String :=
  ["center_lon", "center_lat", "edge1_lon", "edge1_lat", "edge2_lon", "edge2_lat"]

/-- `Grid_S._find_required_grid_attrs`: base attributes, then the optional
center/edge coordinate pairs (all optional — absence is not an error). -/
def gridS_find_required_grid_attrs (fs : FileSys) (filename : Option String)
    (dataset : Option NCDataset) (grid_topology : Option GridTopology) :
    Except PyErr (InitArgs × List (String × NCVar)) :=
  match grid_find_required_grid_attrs fs filename dataset grid_topology with
  | .error e => .error e
  | .ok (ia, gf_vars) =>
    match grid_topology with
    | none =>
      let ia1 :=
        match pair_scan gf_vars [("center_lon", "center_lat"), ("lon_rho", "lat_rho")] with
        | some (a, b) => { ia with center_lon := some a, center_lat := some b }
        | none => ia
      let ia2 :=
        match pair_scan gf_vars [("edge1_lon", "edge1_lat"), ("lon_u", "lat_u")] with
        | some (a, b) => { ia1 with edge1_lon := some a, edge1_lat := some b }
        | none => ia1
      let ia3 :=
        match pair_scan gf_vars [("edge2_lon", "edge2_lat"), ("lon_v", "lat_v")] with
        | some (a, b) => { ia2 with edge2_lon := some a, edge2_lat := some b }
        | none => ia2
      .ok (ia3, gf_vars)
    | some topo =>
      .ok (topo.entries.foldl
            (fun acc p =>
              if p.1 ∈ sgrid_attr_names then
                match lookupVar gf_vars p.2 with
                | some w => setSAttr acc p.1 w.arr
                | none => acc
              else acc)
            ia, gf_vars)

/-- Python `hasattr` applied to a `str` value for a netCDF attribute name
such as `cf_role`, `node_coordinates` or `node_dimensions`: a Python
string object carries no such attribute, so the test is always `False`. -/
def str_hasattr (_v : String) (_attr_name : String) : Bool := false

/-- `Grid._find_topology_var`.  The code iterates `for v in gf.variables`;
`gf.variables` is a name-keyed mapping (every other use in the file —
`n1 in gf_vars`, `gf_vars[n1][:]` — confirms this), so iterating it yields
the variable NAMES as Python `str` values, and `hasattr(v, 'cf_role')`
never holds.  The collected list `gts` is therefore always empty and the
function returns `None` (had a name been collected, `gts[0]` — that name,
a `str` — would be returned). -/
def find_topology_var (fs : FileSys) (filename : Option String)
    (dataset : Option NCDataset) : Option String :=
  match get_dataset fs filename dataset with
  | none => none
  | some gf =>
    let gts := (gf.variables_.map Prod.fst).filter fun v => str_hasattr v "cf_role"
    gts.head?

/-- The two grid classes `from_netCDF` can return. -/
inductive GridKind where
  | U
  | S
deriving Repr, DecidableEq

/-- `str.lower()`: ASCII lowercasing of a Python string, written over the
character list so that it evaluates by kernel reduction. -/
def pyLower (s : String) : String := String.mk (s.data.map Char.toLower)

/-- `sgrid_names = ['sgrid', 'pygrid_s', 'staggered', 'curvilinear', 'roms']` -/
def sgrid_names : List String := ["sgrid", "pygrid_s", "staggered", "curvilinear", "roms"]

/-- `ugrid_names = ['ugrid', 'pygrid_u', 'triangular', 'unstructured']` -/
def ugrid_names : List String := ["ugrid", "pygrid_u", "triangular", "unstructured"]

/-- `Grid._get_grid_type`: the decision cascade.  (1) An explicit
`grid_type` string is matched case-insensitively against the alias lists,
an unknown value raising `ValueError`.  (2) Else a supplied `grid_topology`
decides by its `faces` key or `grid_type` entry, never touching the
dataset.  (3) Else a dataset-level `grid_type` attribute contained
verbatim in the alias lists decides.  (4) Else a topology variable is
searched for (see `find_topology_var`: the search always comes back
empty; were it to return, the returned value would be a `str`, on which
`hasattr(topology, 'node_coordinates')` is `False`).  (5) Else the
unstructured attribute extraction is attempted, a `ValueError` from it —
and only a `ValueError` — falling back to the structured extraction. -/
def get_grid_type (fs : FileSys) (dataset : NCDataset)
    (grid_topology : Option GridTopology) (grid_type : Option String) :
    Except PyErr GridKind :=
  match grid_type with
  | some gt =>
    if pyLower gt ∈ sgrid_names then .ok .S
    else if pyLower gt ∈ ugrid_names then .ok .U
    else .error (.valueError "Specified grid_type not recognized/supported")
  | none =>
    match grid_topology with
    | some topo =>
      if topo.hasKey "faces" = true ∨
          pyLower ((topo.get "grid_type").getD "notype") ∈ ugrid_names then .ok .U
      else .ok .S
    | none =>
      let topo_search : Except PyErr GridKind :=
        match find_topology_var fs none (some dataset) with
        | some t =>
          if str_hasattr t "node_coordinates" = true ∧
              ¬ str_hasattr t "node_dimensions" = true then .ok .U
          else .ok .S
        | none =>
          match gridU_find_required_grid_attrs fs none (some dataset) none with
          | .ok _ => .ok .U
          | .error (.valueError _) =>
            match gridS_find_required_grid_attrs fs none (some dataset) none with
            | .ok _ => .ok .S
            | .error e => .error e
          | .error e => .error e
      match dataset.grid_type with
      | some dgt =>
        if dgt ∈ sgrid_names ++ ugrid_names then
          if pyLower dgt ∈ ugrid_names then .ok .U else .ok .S
        else topo_search
      | none => topo_search

/-- A constructed grid object.  An `Option` field that is `none` models an
attribute that is absent or set to `None` — `Grid.__eq__` treats the two
identically (`hasattr(self, n) and ... getattr(self, n) is not None`).
The auto-generated name counter suffix and the `obj_type` bookkeeping of
`Grid.__init__` play no role in any claim and are not modelled. -/
structure GridObj where
  name : String := ""
  filename : Option String := none
  node_lon : Option NDArray := none
  node_lat : Option NDArray := none
  faces : Option NDArray := none
  nodes : Option NDArray := none
  idv : Option Nat := none
deriving Repr, DecidableEq

/-- `cls(**init_args)`: the selected class constructed from the extracted
attributes.  The grid stores the node coordinate arrays and (for the
unstructured class) the face array it was given. -/
def mk_grid (k : GridKind) (ia : InitArgs) : GridObj :=
  { name := match k with | .U => "Grid_U" | .S => "Grid_S",
    filename := ia.filename,
    node_lon := ia.node_lon,
    node_lat := ia.node_lat,
    faces := ia.faces,
    nodes := none,
    idv := none }

/-- `Grid.from_netCDF`: resolve the dataset (`dataset` takes precedence
over `filename`), pick the class with `_get_grid_type`, extract its
required attributes and construct it. -/
def from_netCDF (fs : FileSys) (filename : Option String)
    (dataset : Option NCDataset) (grid_type : Option String)
    (grid_topology : Option GridTopology) : Except PyErr GridObj :=
  let gf? :=
    match filename with
    | none => dataset
    | some _ => get_dataset fs filename dataset
  match gf? with
  | none => .error (.valueError "No filename or dataset provided")
  | some gf =>
    match get_grid_type fs gf grid_topology grid_type with
    | .error e => .error e
    | .ok cls =>
      match (match cls with
             | .U => gridU_find_required_grid_attrs fs filename dataset grid_topology
             | .S => gridS_find_required_grid_attrs fs filename dataset grid_topology) with
      | .error e => .error e
      | .ok (ia, _) => .ok (mk_grid cls ia)

/-- The saved dict handed to `Grid.new_from_dict`: `has_json` records
whether the `json_` key is present (the code pops it unconditionally),
`filename` and `idv` the `filename` and `id` entries, and `name_attr`
stands for the additional saved attributes that get overlaid. -/
structure SaveDict where
  has_json : Bool
  filename : Option String := none
  idv : Option Nat := none
  name_attr : Option String := none
deriving Repr, DecidableEq

/-- Modelled from the spec: `_restore_attr_from_save` is inherited from
code outside this file; per the spec's serialization section it "overlays
any additional saved attributes onto the freshly constructed instance",
represented here by the saved `name` attribute. -/
def restore_attr_from_save (g : GridObj) (d : SaveDict) : GridObj :=
  { g with name := d.name_attr.getD g.name }

/-- `Grid.new_from_dict`: `dict_.pop('json_')` — a `KeyError` when the key
is absent — then reload the grid from `dict_['filename']`, overlay the
saved attributes and restore the saved `id` when present.  (The
`_def_count -= 1` bookkeeping touches only the global naming counter and
is not modelled.) -/
def new_from_dict (fs : FileSys) (d : SaveDict) : Except PyErr GridObj :=
  if d.has_json = false then .error (.keyError "json_")
  else
    match d.filename with
    | none => .error (.keyError "filename")
    | some f =>
      match from_netCDF fs (some f) none none none with
      | .error e => .error e
      | .ok rv =>
        let rv2 := restore_attr_from_save rv d
        .ok { rv2 with idv := match d.idv with | some i => some i | none => rv2.idv }

/-- One comparison step of `Grid.__eq__` for the attribute pair: when both
sides carry a non-`None` array, their shapes and then their values are
compared (`s.shape != s2.shape or np.any(s != s2)`); otherwise the
attribute is skipped. -/
def arr_eq_check (x y : Option NDArray) : Bool :=
  match x, y with
  | some s, some s2 => s.shape == s2.shape && s.data == s2.data
  | _, _ => true

/-- `Grid.__eq__`: `True` for the same object (`self is o`, passed here as
the `same_object` flag), else the `nodes` and `faces` attributes are the
only ones compared. -/
def grid_eq (same_object : Bool) (a b : GridObj) : Bool :=
  if same_object then true
  else arr_eq_check a.nodes b.nodes && arr_eq_check a.faces b.faces

/-- An example 1-D longitude array. -/
def exLonArr : NDArray := { shape := [4], data := [0, 1, 2, 3] }

/-- An example 1-D latitude array. -/
def exLatArr : NDArray := { shape := [4], data := [10, 11, 12, 13] }

/-- An example `(3, 2)` triangle-major face array (1-based indices). -/
def exFaceArr : NDArray := { shape := [3, 2], data := [1, 2, 3, 4, 5, 6] }

/-- `exFaceArr` after the orientation fix: transposed and 0-based. -/
def exFacesFixed : NDArray := { shape := [2, 3], data := [0, 2, 4, 1, 3, 5] }

/-- An unstructured example dataset: `lon`/`lat` plus an `nv` face variable. -/
def dsU : NCDataset :=
  { variables_ := [("lon", { arr := exLonArr }), ("lat", { arr := exLatArr }),
                   ("nv", { arr := exFaceArr })] }

/-- A structured example dataset: `lon`/`lat` and nothing else. -/
def dsS : NCDataset :=
  { variables_ := [("lon", { arr := exLonArr }), ("lat", { arr := exLatArr })] }

/-- A dataset with a composite `nodes` variable of shape `(3, 2)`. -/
def dsNodes : NCDataset :=
  { variables_ := [("nodes", { arr := { shape := [3, 2], data := [1, 10, 2, 11, 3, 12] } })] }

/-- A dataset with no recognizable node-coordinate variables at all. -/
def dsEmpty : NCDataset := { variables_ := [] }

/-- A dataset carrying a genuine topology variable — `cf_role` contains
"topology", `node_coordinates` is present, `node_dimensions` absent —
alongside plain `lon`/`lat` coordinates and no face variable. -/
def dsTopo : NCDataset :=
  { variables_ :=
      [("mesh", { arr := { shape := [], data := [] },
                  cf_role := some "mesh_topology",
                  node_coordinates := some "lon lat" }),
       ("lon", { arr := exLonArr }), ("lat", { arr := exLatArr })] }

/-- `l.getD` through `List.map` over `List.range`. -/
theorem getD_map_range (m k : Nat) (f : Nat → Int) (hk : k < m) :
    ((List.range m).map f).getD k 0 = f k := by
  rw [List.getD_eq_getElem?_getD, List.getElem?_map, List.getElem?_range hk]
  rfl

/-- The orientation fix on a `(3, N)` array: shape becomes `(N, 3)` and
entry `(i, j)` is source entry `(j, i)` minus one. -/
theorem fix_faces_spec (A : NDArray) (N : Nat) (hs : A.shape = [3, N])
    (hl : A.data.length = 3 * N) :
    (ndSubOne (npTranspose A)).shape = [N, 3] ∧
      ∀ i j, i < N → j < 3 →
        (ndSubOne (npTranspose A)).data.getD (i * 3 + j) 0 =
          A.data.getD (j * N + i) 0 - 1 := by
  constructor
  · simp [ndSubOne, npTranspose, hs]
  · intro i j hi hj
    have hk : i * 3 + j < A.data.length := by omega
    have h1 : (i * 3 + j) / 3 = i := by omega
    have h2 : (i * 3 + j) % 3 = j := by omega
    simp only [ndSubOne, npTranspose, List.map_map]
    rw [getD_map_range A.data.length (i * 3 + j) _ hk]
    simp only [Function.comp, hs, List.reverse_cons, List.reverse_nil,
      List.nil_append, List.cons_append, unflattenIdx, flattenIdx, shapeProd,
      h1, h2, Nat.div_one]
    ring_nf

/-- The variables mapping returned by the base attribute search over an
open dataset is that dataset's variables mapping. -/
theorem grid_find_vars_eq {fs : FileSys} {fn : Option String} {ds : NCDataset}
    {topo : Option GridTopology} {p : InitArgs × List (String × NCVar)}
    (h : grid_find_required_grid_attrs fs fn (some ds) topo = .ok p) :
    p.2 = ds.variables_ := by
  unfold grid_find_required_grid_attrs at h
  dsimp only at h
  repeat' split at h
  all_goals first
    | (injection h with h; rw [← h])
    | (exact absurd h (by simp))

/-- C1: with no `grid_topology` supplied, when the resolved face variable
is a `(3, N)` array the stored faces array has shape `(N, 3)` and entry
`(i, j)` equals source entry `(j, i)` minus one; a face array whose first
dimension is not 3 is stored unchanged. -/
theorem spec_c1_faces_transposed (fs : FileSys) (fn : Option String)
    (ds : NCDataset) (A : NDArray) (N : Nat)
    (res : InitArgs × List (String × NCVar))
    (hA : face_lookup none ds.variables_ = some A)
    (hok : gridU_find_required_grid_attrs fs fn (some ds) none = .ok res) :
    (A.shape = [3, N] → A.data.length = 3 * N →
      ∃ F, res.1.faces = some F ∧ F.shape = [N, 3] ∧
        ∀ i j, i < N → j < 3 →
          F.data.getD (i * 3 + j) 0 = A.data.getD (j * N + i) 0 - 1) ∧
    (A.shape ≠ [] → A.shape.head? ≠ some 3 → res.1.faces = some A) := by
  have hfaces : res.1.faces =
      some (if A.shape.head? = some 3 then ndSubOne (npTranspose A) else A) := by
    unfold gridU_find_required_grid_attrs at hok
    cases hbase : grid_find_required_grid_attrs fs fn (some ds) none with
    | error e => rw [hbase] at hok; exact absurd hok (by simp)
    | ok p =>
      obtain ⟨ia, gfv⟩ := p
      have hvars : gfv = ds.variables_ := grid_find_vars_eq hbase
      subst hvars
      rw [hbase] at hok
      simp only [hA] at hok
      split at hok
      next h3 =>
        injection hok with hok
        rw [← hok, if_pos h3]
      next h3 =>
        injection hok with hok
        rw [← hok, if_neg h3]
  constructor
  · intro hs hl
    refine ⟨ndSubOne (npTranspose A), ?_, (fix_faces_spec A N hs hl).1,
      (fix_faces_spec A N hs hl).2⟩
    rw [hfaces, hs]
    rfl
  · intro _ h3
    rw [hfaces, if_neg h3]

/-- The concrete unstructured extraction on `dsU`. -/
def resU : InitArgs × List (String × NCVar) :=
  ({ filename := none, node_lon := some exLonArr, node_lat := some exLatArr,
     faces := some exFacesFixed }, dsU.variables_)

/-- C1 witness: on `dsU` the `(3, 2)` face variable `nv` is stored as a
`(2, 3)` array with every entry one less than the transposed source. -/
theorem spec_c1_witness :
    ∃ F, resU.1.faces = some F ∧ F.shape = [2, 3] ∧
      ∀ i j, i < 2 → j < 3 →
        F.data.getD (i * 3 + j) 0 = exFaceArr.data.getD (j * 2 + i) 0 - 1 :=
  (spec_c1_faces_transposed [] none dsU exFaceArr 2 resU rfl rfl).1 rfl rfl

/-- C2 (code evaluation at the failing input): `dsTopo` contains a
variable flagged with a topology role (`cf_role` containing "topology")
that carries `node_coordinates` and lacks `node_dimensions`, so the claim
selects Unstructured; but `_find_topology_var` iterates the variables
mapping's KEYS (strings, which never have a `cf_role` attribute), comes
back empty, and the fallback extraction resolves the dataset as
Structured. -/
theorem spec_c2_topology_var_unreachable :
    find_topology_var [] none (some dsTopo) = none ∧
    lookupVar dsTopo.variables_ "mesh" =
      some { arr := { shape := [], data := [] },
             cf_role := some "mesh_topology",
             node_coordinates := some "lon lat" } ∧
    get_grid_type [] dsTopo none none = .ok .S :=
  ⟨rfl, rfl, rfl⟩

/-- C3: an explicit `grid_type` string is matched case-insensitively
against the alias lists — structured aliases select `Grid_S`, unstructured
aliases select `Grid_U`, anything else raises the unsupported-grid-type
`ValueError` — and the decision is independent of the dataset and of any
`grid_topology` mapping. -/
theorem spec_c3_explicit_grid_type (fs fs2 : FileSys) (ds ds2 : NCDataset)
    (topo topo2 : Option GridTopology) (gt : String) :
    (pyLower gt ∈ sgrid_names → get_grid_type fs ds topo (some gt) = .ok .S) ∧
    (pyLower gt ∈ ugrid_names → get_grid_type fs ds topo (some gt) = .ok .U) ∧
    (pyLower gt ∉ sgrid_names → pyLower gt ∉ ugrid_names →
      get_grid_type fs ds topo (some gt) =
        .error (.valueError "Specified grid_type not recognized/supported")) ∧
    get_grid_type fs ds topo (some gt) = get_grid_type fs2 ds2 topo2 (some gt) := by
  refine ⟨?_, ?_, ?_, rfl⟩
  · intro h
    simp [get_grid_type, h]
  · intro h
    have hn : pyLower gt ∉ sgrid_names := by
      simp only [ugrid_names, List.mem_cons, List.not_mem_nil, or_false] at h
      rcases h with h | h | h | h <;> rw [h] <;> decide
    simp [get_grid_type, h, hn]
  · intro h1 h2
    simp [get_grid_type, h1, h2]

/-- C3 witness: `grid_type="ROMS"` selects the structured class even on a
dataset carrying a topology variable. -/
theorem spec_c3_witness :
    get_grid_type [] dsTopo none (some "ROMS") = .ok .S :=
  (spec_c3_explicit_grid_type [] [] dsTopo dsU none none "ROMS").1 (by decide)

/-- C4: a supplied `grid_topology` mapping selects `Grid_U` exactly when it
has a `faces` key or its `grid_type` entry is (case-insensitively) an
unstructured alias, selects `Grid_S` otherwise, and never inspects the
dataset. -/
theorem spec_c4_topology_mapping (fs fs2 : FileSys) (ds ds2 : NCDataset)
    (topo : GridTopology) :
    (get_grid_type fs ds (some topo) none = .ok .U ↔
      (topo.hasKey "faces" = true ∨
        pyLower ((topo.get "grid_type").getD "notype") ∈ ugrid_names)) ∧
    (get_grid_type fs ds (some topo) none = .ok .S ↔
      ¬ (topo.hasKey "faces" = true ∨
        pyLower ((topo.get "grid_type").getD "notype") ∈ ugrid_names)) ∧
    get_grid_type fs ds (some topo) none = get_grid_type fs2 ds2 (some topo) none := by
  refine ⟨?_, ?_, rfl⟩ <;>
    (by_cases h : (topo.hasKey "faces" = true ∨
        pyLower ((topo.get "grid_type").getD "notype") ∈ ugrid_names) <;>
      simp [get_grid_type, h])

/-- A pair list none of whose pairs is fully present scans to `none`. -/
theorem pair_scan_eq_none (gf_vars : List (String × NCVar))
    (l : List (String × String))
    (h : ∀ p ∈ l, lookupVar gf_vars p.1 = none ∨ lookupVar gf_vars p.2 = none) :
    pair_scan gf_vars l = none := by
  induction l with
  | nil => rfl
  | cons q rest ih =>
    obtain ⟨n1, n2⟩ := q
    have hq := h (n1, n2) (List.mem_cons_self _ _)
    have hrest : ∀ p ∈ rest, lookupVar gf_vars p.1 = none ∨ lookupVar gf_vars p.2 = none :=
      fun p hp => h p (List.mem_cons_of_mem _ hp)
    rcases hq with hq | hq
    · simp [pair_scan, hq, ih hrest]
    · cases h1 : lookupVar gf_vars n1 <;> simp [pair_scan, hq, h1, ih hrest]


/-- A pair whose two names are not both present is skipped by the scan. -/
theorem pair_scan_cons_skip (gf_vars : List (String × NCVar)) (n1 n2 : String)
    (rest : List (String × String))
    (h : lookupVar gf_vars n1 = none ∨ lookupVar gf_vars n2 = none) :
    pair_scan gf_vars ((n1, n2) :: rest) = pair_scan gf_vars rest := by
  rcases h with h | h
  · simp [pair_scan, h]
  · cases h1 : lookupVar gf_vars n1 <;> simp [pair_scan, h, h1]

/-- C5: with no `grid_topology`, the coordinate-name pairs are tried in
order and the first fully-present pair binds `node_lon`/`node_lat` to the
source arrays unchanged; when no pair is fully present, a composite
`nodes`/`node` variable of shape `(N, 2)` is split column 0 → `node_lon`,
column 1 → `node_lat`. -/
theorem spec_c5_node_coordinates (fs : FileSys) (fn : Option String) (ds : NCDataset) :
    (∀ k n1 n2 v1 v2,
      node_coord_names[k]? = some (n1, n2) →
      lookupVar ds.variables_ n1 = some v1 →
      lookupVar ds.variables_ n2 = some v2 →
      (∀ (j : Nat) (p : String × String), j < k → node_coord_names[j]? = some p →
        lookupVar ds.variables_ p.1 = none ∨ lookupVar ds.variables_ p.2 = none) →
      ∃ r, grid_find_required_grid_attrs fs fn (some ds) none = .ok r ∧
        r.1.node_lon = some v1.arr ∧ r.1.node_lat = some v2.arr) ∧
    (∀ N A,
      (∀ p ∈ node_coord_names,
        lookupVar ds.variables_ p.1 = none ∨ lookupVar ds.variables_ p.2 = none) →
      composite_lookup ds.variables_ = some A →
      A.shape = [N, 2] → A.data.length = 2 * N →
      ∃ r lonA latA,
        grid_find_required_grid_attrs fs fn (some ds) none = .ok r ∧
        r.1.node_lon = some lonA ∧ r.1.node_lat = some latA ∧
        lonA.shape = [N] ∧ latA.shape = [N] ∧
        (∀ i, i < N → lonA.data.getD i 0 = A.data.getD (2 * i) 0) ∧
        (∀ i, i < N → latA.data.getD i 0 = A.data.getD (2 * i + 1) 0)) := by
  constructor
  · intro k n1 n2 v1 v2 hk h1 h2 hearlier
    have hpair : node_pair_lookup ds.variables_ = some (v1.arr, v2.arr) := by
      unfold node_pair_lookup node_coord_names
      rcases k with _ | _ | _ | m
      ·
        simp only [node_coord_names, List.getElem?_cons_zero, Option.some.injEq,
          Prod.mk.injEq] at hk
        obtain ⟨e1, e2⟩ := hk
        subst e1; subst e2
        simp [pair_scan, h1, h2]
      · simp only [node_coord_names, List.getElem?_cons_succ, List.getElem?_cons_zero,
          Option.some.injEq, Prod.mk.injEq] at hk
        obtain ⟨e1, e2⟩ := hk
        subst e1; subst e2
        rw [pair_scan_cons_skip _ _ _ _
          (hearlier 0 ("node_lon", "node_lat") (by omega) rfl)]
        simp [pair_scan, h1, h2]
      ·
        simp only [node_coord_names, List.getElem?_cons_succ, List.getElem?_cons_zero,
          Option.some.injEq, Prod.mk.injEq] at hk
        obtain ⟨e1, e2⟩ := hk
        subst e1; subst e2
        rw [pair_scan_cons_skip _ _ _ _
          (hearlier 0 ("node_lon", "node_lat") (by omega) rfl)]
        rw [pair_scan_cons_skip _ _ _ _
          (hearlier 1 ("lon", "lat") (by omega) rfl)]
        simp [pair_scan, h1, h2]
      · simp [node_coord_names] at hk
    refine ⟨({ filename := fn, node_lon := some v1.arr, node_lat := some v2.arr },
             ds.variables_), ?_, rfl, rfl⟩
    unfold grid_find_required_grid_attrs
    simp [hpair]
  · intro N A hnone hcomp hsA hlA
    have hpair : node_pair_lookup ds.variables_ = none :=
      pair_scan_eq_none ds.variables_ node_coord_names hnone
    have hre : reshapeNeg1Two A =
        .ok { shape := [A.data.length / 2, 2], data := A.data } := by
      unfold reshapeNeg1Two
      rw [if_pos (by omega)]
    have hN2 : A.data.length / 2 = N := by omega
    refine ⟨({ filename := fn,
               node_lon := some (ndCol { shape := [A.data.length / 2, 2], data := A.data } 0),
               node_lat := some (ndCol { shape := [A.data.length / 2, 2], data := A.data } 1) },
             ds.variables_),
            ndCol { shape := [A.data.length / 2, 2], data := A.data } 0,
            ndCol { shape := [A.data.length / 2, 2], data := A.data } 1,
            ?_, rfl, rfl, ?_, ?_, ?_, ?_⟩
    · unfold grid_find_required_grid_attrs
      simp [hpair, hcomp, hre]
    · simp [ndCol, hN2]
    · simp [ndCol, hN2]
    · intro i hi
      simp only [ndCol, List.headD_cons]
      rw [getD_map_range _ i _ (by omega)]
      norm_num
    · intro i hi
      simp only [ndCol, List.headD_cons]
      rw [getD_map_range _ i _ (by omega)]

/-- C5 witness: on `dsS` (which carries exactly the `lon`/`lat` pair) the
resolved node coordinates are the source arrays. -/
theorem spec_c5_witness :
    ∃ r, grid_find_required_grid_attrs [] none (some dsS) none = .ok r ∧
      r.1.node_lon = some exLonArr ∧ r.1.node_lat = some exLatArr :=
  (spec_c5_node_coordinates [] none dsS).1 1 "lon" "lat"
    { arr := exLonArr } { arr := exLatArr } rfl rfl rfl
    (by
      intro j p hj hp
      have hj0 : j = 0 := by omega
      subst hj0
      have hp0 : p = ("node_lon", "node_lat") := by
        rw [show node_coord_names[0]? = some ("node_lon", "node_lat") from rfl] at hp
        exact (Option.some.inj hp).symm
      subst hp0
      left
      rfl)

/-- C6 counterexample: with a supplied (empty) `grid_topology` mapping on a
dataset with no recognizable node-coordinate variables, the attribute
extraction returns successfully WITHOUT node coordinates — the
node-coordinates-not-found check is skipped whenever a mapping is given,
contradicting the claim's "present or absent" quantification. -/
theorem spec_c6_counterexample :
    grid_find_required_grid_attrs [] none (some dsEmpty) (some { entries := [] }) =
      .ok ({ filename := none }, dsEmpty.variables_) ∧
    ({ filename := none } : InitArgs).node_lon = none ∧
    ({ filename := none } : InitArgs).node_lat = none :=
  ⟨rfl, rfl, rfl⟩

/-- C6 (amended): when `grid_topology` is ABSENT and neither a
coordinate-name pair nor a composite node variable resolves, attribute
extraction fails with `ValueError('Unable to find node coordinates.')`. -/
theorem spec_c6_node_coords_error (fs : FileSys) (fn : Option String) (ds : NCDataset)
    (hpair : node_pair_lookup ds.variables_ = none)
    (hcomp : composite_lookup ds.variables_ = none) :
    grid_find_required_grid_attrs fs fn (some ds) none =
      .error (.valueError "Unable to find node coordinates.") := by
  unfold grid_find_required_grid_attrs
  simp [hpair, hcomp]

/-- C6 witness: the empty dataset raises the node-coordinates error. -/
theorem spec_c6_witness :
    grid_find_required_grid_attrs [] none (some dsEmpty) none =
      .error (.valueError "Unable to find node coordinates.") :=
  spec_c6_node_coords_error [] none dsEmpty rfl rfl

/-- A dataset carrying both a composite variable named `nodes` and a
different variable `mynodes` that a topology mapping points at. -/
def dsSeven : NCDataset :=
  { variables_ :=
      [("nodes", { arr := { shape := [2, 2], data := [1, 2, 3, 4] } }),
       ("mynodes", { arr := { shape := [2, 2], data := [10, 20, 30, 40] } })] }

/-- The topology mapping `{'nodes': 'mynodes'}`. -/
def topoSeven : GridTopology := { entries := [("nodes", "mynodes")] }

/-- C7 counterexample: with the mapping `{'nodes': 'mynodes'}` the code
splits the dataset variable named by the LOGICAL name (`gf_vars['nodes']`,
i.e. `[1, 2, 3, 4]`), not the mapped variable `mynodes`: the resolved
`node_lon` is `[1, 3]`, not `[10, 30]` as the claim requires. -/
theorem spec_c7_counterexample :
    grid_find_required_grid_attrs [] none (some dsSeven) (some topoSeven) =
      .ok ({ filename := none,
             node_lon := some { shape := [2], data := [1, 3] },
             node_lat := some { shape := [2], data := [2, 4] } },
           dsSeven.variables_) ∧
    some ({ shape := [2], data := [1, 3] } : NDArray) ≠
      some ({ shape := [2], data := [10, 30] } : NDArray) :=
  ⟨rfl, by decide⟩

/-- C7 (amended): an entry of the `grid_topology` mapping whose logical
name is `node_lon` or `node_lat` binds that attribute to the dataset
variable named by the mapping's VALUE; an entry whose logical name is a
composite node name causes the dataset variable bearing THE COMPOSITE NAME
ITSELF (not the mapping's value, which is ignored) to be reshaped to
`(N, 2)` and split column 0 → `node_lon`, column 1 → `node_lat`. -/
theorem spec_c7_topology_mapping (fs : FileSys) (fn : Option String) (ds : NCDataset)
    (v : String) (w : NCVar) (wn : NCVar) (N : Nat) :
    (lookupVar ds.variables_ v = some w →
      (∃ r, grid_find_required_grid_attrs fs fn (some ds)
          (some { entries := [("node_lon", v)] }) = .ok r ∧
        r.1.node_lon = some w.arr) ∧
      (∃ r, grid_find_required_grid_attrs fs fn (some ds)
          (some { entries := [("node_lat", v)] }) = .ok r ∧
        r.1.node_lat = some w.arr)) ∧
    (lookupVar ds.variables_ "nodes" = some wn →
      wn.arr.shape = [N, 2] → wn.arr.data.length = 2 * N →
      ∃ r lonA latA,
        grid_find_required_grid_attrs fs fn (some ds)
          (some { entries := [("nodes", v)] }) = .ok r ∧
        r.1.node_lon = some lonA ∧ r.1.node_lat = some latA ∧
        lonA.shape = [N] ∧ latA.shape = [N] ∧
        (∀ i, i < N → lonA.data.getD i 0 = wn.arr.data.getD (2 * i) 0) ∧
        (∀ i, i < N → latA.data.getD i 0 = wn.arr.data.getD (2 * i + 1) 0)) := by
  constructor
  · intro hlook
    constructor
    · refine ⟨({ filename := fn, node_lon := some w.arr }, ds.variables_), ?_, rfl⟩
      unfold grid_find_required_grid_attrs topo_fold
      simp [hlook, node_attrs, composite_node_names, topo_fold]
    · refine ⟨({ filename := fn, node_lat := some w.arr }, ds.variables_), ?_, rfl⟩
      unfold grid_find_required_grid_attrs topo_fold
      simp [hlook, node_attrs, composite_node_names, topo_fold]
  · intro hlook hsh hlen
    have hre : reshapeNeg1Two wn.arr =
        .ok { shape := [wn.arr.data.length / 2, 2], data := wn.arr.data } := by
      unfold reshapeNeg1Two
      rw [if_pos (by omega)]
    have hN2 : wn.arr.data.length / 2 = N := by omega
    refine ⟨({ filename := fn,
               node_lon := some (ndCol { shape := [wn.arr.data.length / 2, 2],
                                          data := wn.arr.data } 0),
               node_lat := some (ndCol { shape := [wn.arr.data.length / 2, 2],
                                          data := wn.arr.data } 1) },
             ds.variables_),
            ndCol { shape := [wn.arr.data.length / 2, 2], data := wn.arr.data } 0,
            ndCol { shape := [wn.arr.data.length / 2, 2], data := wn.arr.data } 1,
            ?_, rfl, rfl, ?_, ?_, ?_, ?_⟩
    · unfold grid_find_required_grid_attrs topo_fold
      simp [hlook, hre, node_attrs, composite_node_names, topo_fold]
    · simp [ndCol, hN2]
    · simp [ndCol, hN2]
    · intro i hi
      simp only [ndCol, List.headD_cons]
      rw [getD_map_range _ i _ (by omega)]
      norm_num
    · intro i hi
      simp only [ndCol, List.headD_cons]
      rw [getD_map_range _ i _ (by omega)]

/-- A dataset for the C7 witness: a variable `vlon` that a mapping binds
to `node_lon`. -/
def dsSevenW : NCDataset := { variables_ := [("vlon", { arr := exLonArr })] }

/-- C7 witness: the mapping `{'node_lon': 'vlon'}` binds `node_lon` to the
`vlon` array of `dsSevenW`. -/
theorem spec_c7_witness :
    ∃ r, grid_find_required_grid_attrs [] none (some dsSevenW)
        (some { entries := [("node_lon", "vlon")] }) = .ok r ∧
      r.1.node_lon = some exLonArr :=
  ((spec_c7_topology_mapping [] none dsSevenW "vlon"
      { arr := exLonArr } { arr := exLonArr } 0).1 rfl).1

/-- A grid with faces and a nodes array. -/
def gridA : GridObj := { name := "a", faces := some exFacesFixed, nodes := some exLonArr }

/-- A grid with the same faces array but a different nodes array. -/
def gridB : GridObj := { name := "b", faces := some exFacesFixed, nodes := some exLatArr }

/-- C8 counterexample: two grids with identical `faces` arrays but
differing non-`None` `nodes` arrays compare UNEQUAL — `__eq__` also
compares the `nodes` attribute, contradicting the claim that identical
faces arrays make grids equal "even if all other attributes differ". -/
theorem spec_c8_counterexample :
    gridA.faces = gridB.faces ∧ grid_eq false gridA gridB = false :=
  ⟨rfl, rfl⟩

/-- C8 (amended): grid equality holds for the same object; two grids whose
faces arrays agree in shape and values compare equal whatever their other
attributes, PROVIDED their `nodes` attributes are not both non-`None`
(those are compared too); and grids whose faces (or nodes) arrays are both
present with differing shape or values compare unequal. -/
theorem spec_c8_grid_equality (a b : GridObj) :
    (grid_eq true a b = true) ∧
    (∀ fa fb, a.faces = some fa → b.faces = some fb → fa.shape = fb.shape →
      fa.data = fb.data → (a.nodes = none ∨ b.nodes = none) →
      grid_eq false a b = true) ∧
    (∀ fa fb, a.faces = some fa → b.faces = some fb →
      (fa.shape ≠ fb.shape ∨ fa.data ≠ fb.data) → grid_eq false a b = false) ∧
    (∀ na nb, a.nodes = some na → b.nodes = some nb →
      (na.shape ≠ nb.shape ∨ na.data ≠ nb.data) → grid_eq false a b = false) := by
  refine ⟨rfl, ?_, ?_, ?_⟩
  · intro fa fb hfa hfb hsh hdata hn
    have h1 : arr_eq_check a.nodes b.nodes = true := by
      rcases hn with hn | hn
      · simp [arr_eq_check, hn]
      · rw [hn]; cases a.nodes <;> simp [arr_eq_check]
    have h2 : arr_eq_check a.faces b.faces = true := by
      simp [arr_eq_check, hfa, hfb, hsh, hdata]
    simp [grid_eq, h1, h2]
  · intro fa fb hfa hfb h
    have h2 : arr_eq_check a.faces b.faces = false := by
      have hval : (fa.shape == fb.shape && fa.data == fb.data) = false := by
        rcases h with h | h <;> simp [h]
      simp [arr_eq_check, hfa, hfb, hval]
    simp [grid_eq, h2]
  · intro na nb hna hnb h
    have h1 : arr_eq_check a.nodes b.nodes = false := by
      have hval : (na.shape == nb.shape && na.data == nb.data) = false := by
        rcases h with h | h <;> simp [h]
      simp [arr_eq_check, hna, hnb, hval]
    simp [grid_eq, h1]

/-- A grid with faces only. -/
def gridC : GridObj := { name := "c", faces := some exFacesFixed }

/-- A grid with the same faces, plus a nodes array and other differing
attributes. -/
def gridD : GridObj :=
  { name := "d", faces := some exFacesFixed, nodes := some exLatArr,
    filename := some "x.nc", node_lon := some exLonArr }

/-- C8 witness: identical faces with `nodes` not both non-`None` compare
equal despite every other attribute differing. -/
theorem spec_c8_witness : grid_eq false gridC gridD = true :=
  (spec_c8_grid_equality gridC gridD).2.1 exFacesFixed exFacesFixed
    rfl rfl rfl rfl (Or.inl rfl)

/-- C10: `__eq__` never inspects `node_lon`/`node_lat`: whenever the
`nodes` attributes are not both non-`None` and the `faces` attributes are
not both non-`None`, two distinct grids compare equal, whatever their
coordinate arrays. -/
theorem spec_c10_eq_ignores_coords (a b : GridObj)
    (hn : a.nodes = none ∨ b.nodes = none)
    (hf : a.faces = none ∨ b.faces = none) :
    grid_eq false a b = true := by
  have h1 : arr_eq_check a.nodes b.nodes = true := by
    rcases hn with hn | hn
    · simp [arr_eq_check, hn]
    · rw [hn]; cases a.nodes <;> simp [arr_eq_check]
  have h2 : arr_eq_check a.faces b.faces = true := by
    rcases hf with hf | hf
    · simp [arr_eq_check, hf]
    · rw [hf]; cases a.faces <;> simp [arr_eq_check]
  simp [grid_eq, h1, h2]

/-- A structured grid holding one set of node coordinates. -/
def gridS1 : GridObj := { name := "s1", node_lon := some exLonArr, node_lat := some exLonArr }

/-- A structured grid with entirely different node coordinates. -/
def gridS2 : GridObj := { name := "s2", node_lon := some exLatArr, node_lat := some exLatArr }

/-- C10 witness: two structured grids with entirely different node
coordinate arrays compare equal. -/
theorem spec_c10_witness : grid_eq false gridS1 gridS2 = true :=
  spec_c10_eq_ignores_coords gridS1 gridS2 (Or.inl rfl) (Or.inl rfl)

/-- C9 counterexample: a dict holding only a `filename` (no `json_` key)
is REJECTED — `dict_.pop('json_')` raises `KeyError('json_')` before any
reconstruction happens — contradicting "for every dict containing at
least a 'filename' key, the dict-based reconstruction path accepts it". -/
theorem spec_c9_counterexample :
    new_from_dict [("f.nc", dsS)]
      { has_json := false, filename := some "f.nc" } = .error (.keyError "json_") :=
  rfl

/-- C9 (amended): a saved dict containing the `json_` marker AND a
`filename` is accepted; the grid is re-derived from that file, so its node
coordinate arrays equal those of the freshly loaded grid, and the saved
attributes are overlaid onto it. -/
theorem spec_c9_round_trip (fs : FileSys) (d : SaveDict) (f : String) (g : GridObj)
    (hjson : d.has_json = true) (hfn : d.filename = some f)
    (hload : from_netCDF fs (some f) none none none = .ok g) :
    ∃ g2, new_from_dict fs d = .ok g2 ∧
      g2.node_lon = g.node_lon ∧ g2.node_lat = g.node_lat ∧
      g2.name = d.name_attr.getD g.name := by
  unfold new_from_dict
  rw [hjson, hfn]
  dsimp only
  rw [hload]
  exact ⟨_, rfl, rfl, rfl, rfl⟩

/-- The file system for the C9 witness. -/
def fsW : FileSys := [("f.nc", dsS)]

/-- The grid freshly loaded from `f.nc`. -/
def gFresh : GridObj :=
  { name := "Grid_S", filename := some "f.nc",
    node_lon := some exLonArr, node_lat := some exLatArr }

/-- The saved dict for the C9 witness. -/
def dSave : SaveDict :=
  { has_json := true, filename := some "f.nc", idv := some 7,
    name_attr := some "saved_grid" }

/-- C9 witness: reconstruction through the dict path reproduces the node
coordinates of the fresh load and overlays the saved name. -/
theorem spec_c9_witness :
    ∃ g2, new_from_dict fsW dSave = .ok g2 ∧
      g2.node_lon = gFresh.node_lon ∧ g2.node_lat = gFresh.node_lat ∧
      g2.name = dSave.name_attr.getD gFresh.name :=
  spec_c9_round_trip fsW dSave "f.nc" gFresh rfl rfl rfl
